import Mathlib

/-!
Verification development for the gosolid repository: a minimal HTTP CRUD
service for posts over a global in-memory map (source file `part_001`),
plus a notifier-demo variant (`part_000`) and its LSP-violating variant
(`lsp.go`).

Shallow-embedding conventions:
* The Go `map[int]Post` is modelled as an association list `List (Int × Post)`;
  `mapLookup`, `mapInsert` and `mapDelete` implement Go map indexing,
  assignment and `delete`.
* Go `int` is modelled as `Int` together with explicit two's-complement
  wraparound where the source can overflow: `wrapInt64` reduces a value
  into `[-2^63, 2^63)`, and the `idPostCounter++` of `AddPost` increments
  through it, exactly as Go defines signed-integer overflow.
* Fallible Go results `(T, error)` are modelled as `T × Option GoError`;
  a `none` error component is Go's `nil` error.
* Each gin handler is a function from the global state and its request
  data (path parameter string, optionally the JSON-decoded body, where
  `none` models a body that fails `ShouldBindJSON`) to the written HTTP
  response plus the resulting global state.
* `slices.SortedFunc(maps.Values(...), cmp on ID)` sorts the map's values
  by ascending ID; Go's map iteration order is unspecified and the sort is
  unstable, but on value lists with pairwise-distinct IDs every correct
  sort agrees, so it is modelled by insertion sort over `p.ID ≤ q.ID`
  applied to the association list's values.
-/

/-- The `Post` entity of the CRUD variant (`part_001`): integer ID, title, body. -/
structure Post where
  ID : Int
  Title : String
  Body : String
deriving DecidableEq, Repr

/-- The only error value the DB layer produces: `ErrNotFound = errors.New("not found")`. -/
inductive GoError where
  | ErrNotFound
deriving DecidableEq, Repr

/-- Go map lookup `m[k]` on the association-list model: first matching key. -/
def mapLookup : List (Int × Post) → Int → Option Post
  | [], _ => none
  | (k', v) :: rest, k => if k' = k then some v else mapLookup rest k

/-- Go map assignment `m[k] = v`: replace the entry for `k`, or append it. -/
def mapInsert : List (Int × Post) → Int → Post → List (Int × Post)
  | [], k, v => [(k, v)]
  | (k', v') :: rest, k, v =>
      if k' = k then (k, v) :: rest else (k', v') :: mapInsert rest k v

/-- Go `delete(m, k)`: remove the entry for `k` (no-op when absent). -/
def mapDelete : List (Int × Post) → Int → List (Int × Post)
  | [], _ => []
  | (k', v') :: rest, k =>
      if k' = k then mapDelete rest k else (k', v') :: mapDelete rest k

/-- The global mutable state of `part_001`: `inmemoryPostDB` and `idPostCounter`
(the mutex is irrelevant in this sequential model). -/
structure DBState where
  inmemoryPostDB : List (Int × Post)
  idPostCounter : Int
deriving DecidableEq, Repr

/-- Go's defined two's-complement wraparound of a 64-bit signed `int`:
the value reduced into `[-2^63, 2^63)`. -/
def wrapInt64 (v : Int) : Int := (v + 2 ^ 63) % 2 ^ 64 - 2 ^ 63

/-- `DB.AddPost`: increments the counter (`idPostCounter++`, wrapping at the
64-bit boundary as Go's `int` does), assigns it as the new post's ID, stores
the post under that key, and returns it with a nil error. -/
def AddPost (st : DBState) (newPost : Post) : (Post × Option GoError) × DBState :=
  let newID := wrapInt64 (st.idPostCounter + 1)
  let stored := { newPost with ID := newID }
  ((stored, none),
   { inmemoryPostDB := mapInsert st.inmemoryPostDB newID stored,
     idPostCounter := newID })

/-- `DB.GetPostByID`: map lookup; on a missing key returns the zero `Post`
and `ErrNotFound`. Reads only, so the state is not returned. -/
def GetPostByID (st : DBState) (id : Int) : Post × Option GoError :=
  match mapLookup st.inmemoryPostDB id with
  | some post => (post, none)
  | none => ({ ID := 0, Title := "", Body := "" }, some GoError.ErrNotFound)

/-- The comparator of `GetAllPost`: `cmp.Compare(p1.ID, p2.ID)` orders posts by
ascending ID. -/
def sortByID (l : List Post) : List Post :=
  List.insertionSort (fun p q => p.ID ≤ q.ID) l

/-- `DB.GetAllPost`: the map's values sorted by ascending ID, nil error. -/
def GetAllPost (st : DBState) : List Post × Option GoError :=
  (sortByID (st.inmemoryPostDB.map Prod.snd), none)

/-- `DB.UpdatePost`: unconditionally writes the argument under key
`updatePost.ID` and returns it with a nil error. -/
def UpdatePost (st : DBState) (updatePost : Post) : (Post × Option GoError) × DBState :=
  ((updatePost, none),
   { st with inmemoryPostDB := mapInsert st.inmemoryPostDB updatePost.ID updatePost })

/-- `DB.DeletePostByID`: `delete(inmemoryPostDB, id)`, always nil error. -/
def DeletePostByID (st : DBState) (id : Int) : Option GoError × DBState :=
  (none, { st with inmemoryPostDB := mapDelete st.inmemoryPostDB id })

/-- JSON request body of `POST /posts`. -/
structure NewPostReq where
  Title : String
  Body : String
deriving DecidableEq, Repr

/-- JSON response body of `POST /posts`. -/
structure NewPostResp where
  ID : Int
  Title : String
  Body : String
deriving DecidableEq, Repr

/-- JSON response body of `GET /posts/:id`. -/
structure GetPostResp where
  ID : Int
  Title : String
  Body : String
deriving DecidableEq, Repr

/-- One element of the JSON response of `GET /posts`. -/
structure ListPostDataResp where
  ID : Int
  Title : String
  Body : String
deriving DecidableEq, Repr

/-- JSON request body of `PATCH /posts/:id`. -/
structure UpdatePostReq where
  Title : String
  Body : String
deriving DecidableEq, Repr

/-- JSON response body of `PATCH /posts/:id`. -/
structure UpdatePostResp where
  ID : Int
  Title : String
  Body : String
deriving DecidableEq, Repr

/-- A JSON body written by one of the CRUD handlers. -/
inductive RespBody where
  | newPost (r : NewPostResp)
  | getPost (r : GetPostResp)
  | listPost (rs : List ListPostDataResp)
  | updatePost (r : UpdatePostResp)
deriving DecidableEq, Repr

/-- The observable HTTP response of a handler: status code, and the JSON body
if one was written (`AbortWithStatus`/`AbortWithError`/`Status` write none). -/
structure HttpResponse where
  status : Nat
  body : Option RespBody
deriving DecidableEq, Repr

/-- Decimal digit value of a character, if it is a digit. -/
def digitVal (c : Char) : Option Nat :=
  if c.isDigit then some (c.toNat - 48) else none

/-- Accumulate a decimal number from a digit string; fails on any non-digit. -/
def parseDigits : List Char → Nat → Option Nat
  | [], acc => some acc
  | c :: cs, acc =>
      match digitVal c with
      | some d => parseDigits cs (acc * 10 + d)
      | none => none

/-- `strconv.Atoi`: optional sign, then one or more decimal digits, within the
64-bit `int` range; any other input (including the empty string) is an error,
modelled as `none`. -/
def Atoi (s : String) : Option Int :=
  match s.toList with
  | [] => none
  | c :: cs =>
    let signed : Bool × List Char :=
      if c = '-' then (true, cs)
      else if c = '+' then (false, cs)
      else (false, c :: cs)
    match signed.2 with
    | [] => none
    | ds =>
      match parseDigits ds 0 with
      | none => none
      | some n =>
        let v : Int := if signed.1 then -(n : Int) else (n : Int)
        if v < -(2 ^ 63) ∨ (2 ^ 63 - 1 : Int) < v then none else some v

/-- `NewPostHandler` (`POST /posts`): bind the JSON body (400 on failure),
`AddPost`, respond `200 {id,title,body}`. -/
def NewPostHandler (st : DBState) (body : Option NewPostReq) : HttpResponse × DBState :=
  match body with
  | none => ({ status := 400, body := none }, st)
  | some req =>
    let r := AddPost st { ID := 0, Title := req.Title, Body := req.Body }
    match r.1.2 with
    | some _ => ({ status := 500, body := none }, r.2)
    | none =>
      let post := r.1.1
      ({ status := 200,
         body := some (.newPost { ID := post.ID, Title := post.Title, Body := post.Body }) },
       r.2)

/-- `GetPostHandler` (`GET /posts/:id`): empty id → 400, non-numeric id → 400,
unknown id → 404, otherwise `200 {id,title,body}`. -/
def GetPostHandler (st : DBState) (idParam : String) : HttpResponse × DBState :=
  if idParam = "" then ({ status := 400, body := none }, st)
  else
    match Atoi idParam with
    | none => ({ status := 400, body := none }, st)
    | some id =>
      let r := GetPostByID st id
      match r.2 with
      | some e =>
        if e = GoError.ErrNotFound then ({ status := 404, body := none }, st)
        else ({ status := 500, body := none }, st)
      | none =>
        ({ status := 200,
           body := some (.getPost { ID := r.1.ID, Title := r.1.Title, Body := r.1.Body }) },
         st)

/-- `ListPostHanlder` (`GET /posts`): `GetAllPost`, respond 200 with the list
(the source's misspelling is kept). -/
def ListPostHanlder (st : DBState) : HttpResponse × DBState :=
  let r := GetAllPost st
  match r.2 with
  | some _ => ({ status := 500, body := none }, st)
  | none =>
    ({ status := 200,
       body := some (.listPost (r.1.map fun p =>
         { ID := p.ID, Title := p.Title, Body := p.Body })) },
     st)

/-- `UpdatePostHanlder` (`PATCH /posts/:id`): empty id → 400, non-numeric
id → 400, unknown id → 404 (before the body is bound), malformed body → 400,
otherwise overwrite title/body via `UpdatePost` and respond `200 {id,title,body}`
(the source's misspelling is kept). -/
def UpdatePostHanlder (st : DBState) (idParam : String) (body : Option UpdatePostReq) :
    HttpResponse × DBState :=
  if idParam = "" then ({ status := 400, body := none }, st)
  else
    match Atoi idParam with
    | none => ({ status := 400, body := none }, st)
    | some id =>
      let r := GetPostByID st id
      match r.2 with
      | some e =>
        if e = GoError.ErrNotFound then ({ status := 404, body := none }, st)
        else ({ status := 500, body := none }, st)
      | none =>
        match body with
        | none => ({ status := 400, body := none }, st)
        | some req =>
          let post := { r.1 with Body := req.Body, Title := req.Title }
          let u := UpdatePost st post
          match u.1.2 with
          | some _ => ({ status := 500, body := none }, u.2)
          | none =>
            ({ status := 200,
               body := some (.updatePost
                 { ID := u.1.1.ID, Title := u.1.1.Title, Body := u.1.1.Body }) },
             u.2)

/-- `DeletePostHandler` (`DELETE /posts/:id`): empty id → 400, non-numeric
id → 400, unknown id → 404, otherwise delete and respond 204. -/
def DeletePostHandler (st : DBState) (idParam : String) : HttpResponse × DBState :=
  if idParam = "" then ({ status := 400, body := none }, st)
  else
    match Atoi idParam with
    | none => ({ status := 400, body := none }, st)
    | some id =>
      let r := GetPostByID st id
      match r.2 with
      | some e =>
        if e = GoError.ErrNotFound then ({ status := 404, body := none }, st)
        else ({ status := 500, body := none }, st)
      | none =>
        let d := DeletePostByID st id
        match d.1 with
        | some _ => ({ status := 500, body := none }, d.2)
        | none => ({ status := 204, body := none }, d.2)

/-- A sequence of `DB.AddPost` calls: returns the posts handed back to the
callers, in call order, together with the final state. -/
def addPosts (st : DBState) : List Post → List Post × DBState
  | [] => ([], st)
  | p :: ps =>
    let r := AddPost st p
    let rest := addPosts r.2 ps
    (r.1.1 :: rest.1, rest.2)

namespace NotifierDemo

/-- The `Action` string type of the notifier variant (`part_000`). -/
inductive Action where
  | create
  | update
  | delete
deriving DecidableEq, Repr

/-- The underlying string of each `Action` constant. -/
def Action.str : Action → String
  | .create => "create"
  | .update => "update"
  | .delete => "delete"

/-- Modelled from the spec: the notifier variant's `Post` type is not among
the provided source files; per the glossary it is a title/body pair, and the
`EmailNotifier` code additionally reads `post.Author.Email`, so the model
carries a `Title`, a `Body` and an author email. -/
structure Author where
  Email : String
deriving DecidableEq, Repr

/-- Modelled from the spec: the notifier variant's `Post` (see `Author`). -/
structure Post where
  Title : String
  Body : String
  Author : Author
deriving DecidableEq, Repr

/-- The Go zero value `Post{}` built by the update handlers. -/
def zeroPost : Post := { Title := "", Body := "", Author := { Email := "" } }

/-- The dynamic type of a notifier value, as seen by a Go type switch:
`*EmailNotifier`, `*LineNotifier`, or any other implementation. -/
inductive NotifierKind where
  | emailNotifier
  | lineNotifier
  | otherNotifier
deriving DecidableEq, Repr

/-- A `PostUpdateNotifier` interface value: its dynamic type together with the
behaviour of its `NotifyPostUpdated` method (`none` models a nil error,
`some e` an error `e`). -/
structure PostUpdateNotifier where
  kind : NotifierKind
  notify : Post → Action → Option String

/-- `EmailNotifier.NotifyPostUpdated`, parameterised by the behaviour of the
injected `EmailService.SendEmail`: builds the subject and body strings and
sends from `noreply@example.com` to the post author's email. -/
def EmailNotifier (sendEmail : String → String → String → String → Option String) :
    PostUpdateNotifier :=
  { kind := .emailNotifier,
    notify := fun post action =>
      let subject := "Post Update Notification"
      let body := "The post has been updated with the following details:\n" ++
        "Title: " ++ post.Title ++ "\n" ++
        "Body: " ++ post.Body ++ "\n" ++
        "Action: " ++ action.str
      sendEmail "noreply@example.com" post.Author.Email subject body }

/-- The observable effects of one run of an update handler: the notifiers it
actually invoked (in invocation order), the errors recorded via `c.Error`, and
the JSON response written, if any (`(200, "post updated")` on success; on an
early error return no response is written by the handler). -/
structure HandlerOutcome where
  invoked : List PostUpdateNotifier
  recordedErrors : List String
  response : Option (Nat × String)

/-- `PostHandler.UpdateHandler` of `part_000`: builds the zero post, then
invokes every registered notifier in order; on the first notifier error it
records the error and returns at once; if all succeed it responds
`200 {"status": "post updated"}`. -/
def UpdateHandler : List PostUpdateNotifier → HandlerOutcome
  | [] => { invoked := [], recordedErrors := [], response := some (200, "post updated") }
  | n :: rest =>
    match n.notify zeroPost .update with
    | some e => { invoked := [n], recordedErrors := [e], response := none }
    | none =>
      let o := UpdateHandler rest
      { o with invoked := n :: o.invoked }

end NotifierDemo

namespace LSPVariant

open NotifierDemo

/-- `PostHandler.UpdateHandler` of `lsp.go`: like the `part_000` handler, but a
type switch invokes `NotifyPostUpdated` only on notifiers whose dynamic type is
`*EmailNotifier`; every other notifier is skipped without being invoked. -/
def UpdateHandler : List PostUpdateNotifier → HandlerOutcome
  | [] => { invoked := [], recordedErrors := [], response := some (200, "post updated") }
  | n :: rest =>
    match n.kind with
    | .emailNotifier =>
      match n.notify zeroPost .update with
      | some e => { invoked := [n], recordedErrors := [e], response := none }
      | none =>
        let o := UpdateHandler rest
        { o with invoked := n :: o.invoked }
    | _ => UpdateHandler rest

end LSPVariant

/-! ## Helper lemmas about the association-list map model -/

theorem mapLookup_mapDelete_self (m : List (Int × Post)) (k : Int) :
    mapLookup (mapDelete m k) k = none := by
  induction m with
  | nil => rfl
  | cons e rest ih =>
    by_cases h : e.1 = k
    · simpa [mapDelete, h] using ih
    · simpa [mapDelete, h, mapLookup] using ih

theorem mapLookup_mapInsert_self (m : List (Int × Post)) (k : Int) (v : Post) :
    mapLookup (mapInsert m k v) k = some v := by
  induction m with
  | nil => simp [mapInsert, mapLookup]
  | cons e rest ih =>
    by_cases h : e.1 = k
    · simp [mapInsert, h, mapLookup]
    · simpa [mapInsert, h, mapLookup] using ih

/-! ## Helper lemmas about `wrapInt64` and `addPosts` (C1) -/

theorem wrapInt64_eq_of_range (v : Int) (hlo : -(2 ^ 63) ≤ v) (hhi : v ≤ 2 ^ 63 - 1) :
    wrapInt64 v = v := by
  have e1 : (2 : Int) ^ 63 = 9223372036854775808 := by norm_num
  have e2 : (2 : Int) ^ 64 = 18446744073709551616 := by norm_num
  unfold wrapInt64
  rw [e1] at hlo hhi
  rw [e1, e2]
  rw [Int.emod_eq_of_lt (by omega) (by omega)]
  omega

theorem addPosts_ids_bounds (ps : List Post) :
    ∀ st : DBState, -(2 ^ 63) ≤ st.idPostCounter →
      st.idPostCounter + (ps.length : Int) ≤ 2 ^ 63 - 1 →
      (∀ q ∈ (addPosts st ps).1,
        st.idPostCounter < q.ID ∧ q.ID ≤ st.idPostCounter + (ps.length : Int)) ∧
      ((addPosts st ps).1.Pairwise fun p q => p.ID < q.ID) := by
  induction ps with
  | nil =>
    intro st _ _
    refine ⟨?_, List.Pairwise.nil⟩
    intro q hq
    simp [addPosts] at hq
  | cons p ps ih =>
    intro st hlo hhi
    have e1 : (2 : Int) ^ 63 = 9223372036854775808 := by norm_num
    simp only [List.length_cons] at hhi
    push_cast at hhi
    rw [e1] at hlo
    have hwrap : wrapInt64 (st.idPostCounter + 1) = st.idPostCounter + 1 :=
      wrapInt64_eq_of_range _ (by rw [e1]; omega) (by rw [e1]; omega)
    have hcounter : (AddPost st p).2.idPostCounter = st.idPostCounter + 1 := hwrap
    have hhead : (AddPost st p).1.1.ID = st.idPostCounter + 1 := hwrap
    obtain ⟨hbounds, hpw⟩ := ih (AddPost st p).2
      (by rw [hcounter, e1]; omega)
      (by rw [hcounter, e1]; omega)
    rw [hcounter] at hbounds
    constructor
    · intro q hq
      rw [show (addPosts st (p :: ps)).1
          = (AddPost st p).1.1 :: (addPosts (AddPost st p).2 ps).1 from rfl] at hq
      rcases List.mem_cons.mp hq with rfl | hq
      · rw [hhead]
        simp only [List.length_cons]
        push_cast
        omega
      · have hb := hbounds q hq
        simp only [List.length_cons]
        push_cast
        omega
    · rw [show (addPosts st (p :: ps)).1
          = (AddPost st p).1.1 :: (addPosts (AddPost st p).2 ps).1 from rfl]
      refine List.pairwise_cons.mpr ⟨?_, hpw⟩
      intro q hq
      rw [hhead]
      exact (hbounds q hq).1

/-! ## Helper lemmas about `sortByID` (C2) -/

instance : IsTotal Post fun p q => p.ID ≤ q.ID := ⟨fun a b => Int.le_total a.ID b.ID⟩

instance : IsTrans Post fun p q => p.ID ≤ q.ID := ⟨fun _ _ _ h h' => le_trans h h'⟩

theorem sortByID_perm (l : List Post) : List.Perm (sortByID l) l :=
  List.perm_insertionSort _ l

theorem sortByID_sorted (l : List Post) :
    (sortByID l).Sorted fun p q => p.ID ≤ q.ID :=
  List.sorted_insertionSort _ l

theorem sorted_le_lt_of_nodup {l : List Post}
    (hs : l.Sorted fun p q => p.ID ≤ q.ID) (hnd : (l.map Post.ID).Nodup) :
    l.Sorted fun p q => p.ID < p.ID ∨ p.ID < q.ID := by
  have hne : l.Pairwise fun p q : Post => p.ID ≠ q.ID := List.pairwise_map.mp hnd
  exact (hs.and hne).imp fun h => Or.inr (lt_of_le_of_ne h.1 h.2)

theorem sortByID_eq_of_perm {l₁ l₂ : List Post}
    (hnd : (l₁.map Post.ID).Nodup) (hp : List.Perm l₁ l₂) :
    sortByID l₁ = sortByID l₂ := by
  haveI : IsAntisymm Post fun p q : Post => p.ID < p.ID ∨ p.ID < q.ID :=
    ⟨by
      rintro a b (h | h) (h' | h') <;> first
        | exact absurd h (lt_irrefl _)
        | exact absurd h' (lt_irrefl _)
        | exact absurd (lt_trans h h') (lt_irrefl _)⟩
  have hnd₂ : (l₂.map Post.ID).Nodup := ((hp.map Post.ID).nodup_iff).mp hnd
  have hnd₁' : ((sortByID l₁).map Post.ID).Nodup :=
    (((sortByID_perm l₁).map Post.ID).nodup_iff).mpr hnd
  have hnd₂' : ((sortByID l₂).map Post.ID).Nodup :=
    (((sortByID_perm l₂).map Post.ID).nodup_iff).mpr hnd₂
  have hperm : List.Perm (sortByID l₁) (sortByID l₂) :=
    (sortByID_perm l₁).trans (hp.trans (sortByID_perm l₂).symm)
  exact List.eq_of_perm_of_sorted hperm
    (sorted_le_lt_of_nodup (sortByID_sorted l₁) hnd₁')
    (sorted_le_lt_of_nodup (sortByID_sorted l₂) hnd₂')

/-! ## Claim theorems -/

/-- Counterexample for C1 as stated: Go's `idPostCounter++` wraps at the
64-bit boundary, so with the counter at `2^63 - 2` two `AddPost` calls return
IDs `2^63 - 1` and then `-2^63` — the second call's ID is smaller than the
first's, and the returned IDs are not strictly increasing. -/
theorem AddPost_wraps_at_maxInt64 :
    ((addPosts { inmemoryPostDB := [], idPostCounter := 2 ^ 63 - 2 }
        [{ ID := 0, Title := "a", Body := "A" }, { ID := 0, Title := "b", Body := "B" }]).1.map
      Post.ID) = [2 ^ 63 - 1, -(2 ^ 63)] ∧
    ¬ ((addPosts { inmemoryPostDB := [], idPostCounter := 2 ^ 63 - 2 }
        [{ ID := 0, Title := "a", Body := "A" }, { ID := 0, Title := "b", Body := "B" }]).1.Pairwise
      fun p q : Post => p.ID < q.ID) :=
  ⟨by decide, by decide⟩

/-- C1 (amended): as long as the 64-bit counter does not overflow — the
starting counter is in range and the number of calls keeps it at most
`maxInt64` — every sequence of `DB.AddPost` calls returns posts with strictly
increasing IDs, each call's ID strictly greater than every earlier call's, and
the assigned IDs pairwise distinct. The program starts the counter at 0, so
this covers every run of fewer than `2^63` creations; at the overflow point
the counter wraps and strict increase fails. -/
theorem AddPost_ids_strictly_increasing (st : DBState) (ps : List Post)
    (hlo : -(2 ^ 63) ≤ st.idPostCounter)
    (hhi : st.idPostCounter + (ps.length : Int) ≤ 2 ^ 63 - 1) :
    ((addPosts st ps).1.Pairwise fun p q => p.ID < q.ID) ∧
    ((addPosts st ps).1.map Post.ID).Nodup := by
  obtain ⟨-, hpw⟩ := addPosts_ids_bounds ps st hlo hhi
  refine ⟨hpw, List.pairwise_map.mpr ?_⟩
  exact hpw.imp fun h => ne_of_lt h

/-- Witness for C1 (amended) at the program's initial counter value 0 with two
creations: the hypotheses hold and the returned IDs strictly increase. -/
theorem AddPost_ids_strictly_increasing_witness :
    (-(2 ^ 63) ≤ ({ inmemoryPostDB := [], idPostCounter := 0 } : DBState).idPostCounter) ∧
    (({ inmemoryPostDB := [], idPostCounter := 0 } : DBState).idPostCounter +
      (([{ ID := 0, Title := "a", Body := "A" }, { ID := 0, Title := "b", Body := "B" }] :
          List Post).length : Int) ≤ 2 ^ 63 - 1) ∧
    ((addPosts { inmemoryPostDB := [], idPostCounter := 0 }
        [{ ID := 0, Title := "a", Body := "A" }, { ID := 0, Title := "b", Body := "B" }]).1.Pairwise
      fun p q => p.ID < q.ID) ∧
    ((addPosts { inmemoryPostDB := [], idPostCounter := 0 }
        [{ ID := 0, Title := "a", Body := "A" },
         { ID := 0, Title := "b", Body := "B" }]).1.map Post.ID).Nodup :=
  ⟨by decide, by decide,
    (AddPost_ids_strictly_increasing { inmemoryPostDB := [], idPostCounter := 0 }
      [{ ID := 0, Title := "a", Body := "A" }, { ID := 0, Title := "b", Body := "B" }]
      (by decide) (by decide)).1,
    (AddPost_ids_strictly_increasing { inmemoryPostDB := [], idPostCounter := 0 }
      [{ ID := 0, Title := "a", Body := "A" }, { ID := 0, Title := "b", Body := "B" }]
      (by decide) (by decide)).2⟩

/-- C2: `DB.GetAllPost` returns exactly the stored posts (a permutation of the
map's values), sorted by ascending ID; and when the stored IDs are distinct
(the case for every reachable store) the result is determined by the set of
stored posts alone, independent of the order of insertion or update. -/
theorem GetAllPost_sorted_by_id (st : DBState) :
    List.Perm (GetAllPost st).1 (st.inmemoryPostDB.map Prod.snd) ∧
    ((GetAllPost st).1.Sorted fun p q => p.ID ≤ q.ID) ∧
    (((st.inmemoryPostDB.map Prod.snd).map Post.ID).Nodup →
      ∀ st₂ : DBState,
        List.Perm (st₂.inmemoryPostDB.map Prod.snd) (st.inmemoryPostDB.map Prod.snd) →
        (GetAllPost st₂).1 = (GetAllPost st).1) := by
  refine ⟨sortByID_perm _, sortByID_sorted _, ?_⟩
  intro hnd st₂ hperm
  exact (sortByID_eq_of_perm hnd hperm.symm).symm

/-- Witness for C2 at a concrete two-post store: the same posts inserted in the
opposite order yield the same sorted listing. -/
theorem GetAllPost_sorted_by_id_witness :
    ((({ inmemoryPostDB := [(2, ⟨2, "b", "B"⟩), (1, ⟨1, "a", "A"⟩)],
         idPostCounter := 2 } : DBState).inmemoryPostDB.map Prod.snd).map Post.ID).Nodup ∧
    List.Perm
      (({ inmemoryPostDB := [(1, ⟨1, "a", "A"⟩), (2, ⟨2, "b", "B"⟩)],
          idPostCounter := 2 } : DBState).inmemoryPostDB.map Prod.snd)
      (({ inmemoryPostDB := [(2, ⟨2, "b", "B"⟩), (1, ⟨1, "a", "A"⟩)],
          idPostCounter := 2 } : DBState).inmemoryPostDB.map Prod.snd) ∧
    (GetAllPost
        { inmemoryPostDB := [(1, ⟨1, "a", "A"⟩), (2, ⟨2, "b", "B"⟩)], idPostCounter := 2 }).1 =
      (GetAllPost
        { inmemoryPostDB := [(2, ⟨2, "b", "B"⟩), (1, ⟨1, "a", "A"⟩)], idPostCounter := 2 }).1 :=
  ⟨by decide, by decide,
    (GetAllPost_sorted_by_id
        { inmemoryPostDB := [(2, ⟨2, "b", "B"⟩), (1, ⟨1, "a", "A"⟩)],
          idPostCounter := 2 }).2.2 (by decide)
      { inmemoryPostDB := [(1, ⟨1, "a", "A"⟩), (2, ⟨2, "b", "B"⟩)], idPostCounter := 2 }
      (by decide)⟩

/-- C9: `DB.UpdatePost` is an unconditional upsert: it stores its argument
under key `p.ID` (creating the entry if absent) and returns it with a nil
error; afterwards the entry is present. The 404 for unknown IDs is produced
only by the HTTP handler, not by this DB operation. -/
theorem UpdatePost_upsert (st : DBState) (p : Post) :
    UpdatePost st p =
      ((p, none),
       { st with inmemoryPostDB := mapInsert st.inmemoryPostDB p.ID p }) ∧
    mapLookup ((UpdatePost st p).2).inmemoryPostDB p.ID = some p :=
  ⟨rfl, mapLookup_mapInsert_self st.inmemoryPostDB p.ID p⟩

/-- C3: `PATCH /posts/:id` on a numeric id that is not in the store responds
404 and leaves the store (and the whole global state) unchanged, whatever the
request body is. -/
theorem UpdatePostHanlder_unknown_id_404 (st : DBState) (idParam : String) (id : Int)
    (body : Option UpdatePostReq) (hid : Atoi idParam = some id)
    (hmiss : mapLookup st.inmemoryPostDB id = none) :
    UpdatePostHanlder st idParam body = ({ status := 404, body := none }, st) := by
  have hne : idParam ≠ "" := by
    rintro rfl
    rw [show Atoi "" = none from rfl] at hid
    simp at hid
  simp [UpdatePostHanlder, hne, hid, GetPostByID, hmiss]

/-- Witness for C3: updating id 7 in the empty store responds 404 and keeps
the state. -/
theorem UpdatePostHanlder_unknown_id_404_witness :
    Atoi "7" = some 7 ∧
    mapLookup (([] : List (Int × Post))) 7 = none ∧
    UpdatePostHanlder ⟨[], 0⟩ "7" (some ⟨"t", "b"⟩) =
      ({ status := 404, body := none }, ⟨[], 0⟩) :=
  ⟨by decide, by decide,
    UpdatePostHanlder_unknown_id_404 ⟨[], 0⟩ "7" 7 (some ⟨"t", "b"⟩) (by decide) (by decide)⟩

/-- C4: `GET /posts/:id` and `DELETE /posts/:id` on a numeric id that is not
in the store both respond 404 and leave the state unchanged (in particular the
delete removes nothing). -/
theorem get_delete_unknown_id_404 (st : DBState) (idParam : String) (id : Int)
    (hid : Atoi idParam = some id) (hmiss : mapLookup st.inmemoryPostDB id = none) :
    GetPostHandler st idParam = ({ status := 404, body := none }, st) ∧
    DeletePostHandler st idParam = ({ status := 404, body := none }, st) := by
  have hne : idParam ≠ "" := by
    rintro rfl
    rw [show Atoi "" = none from rfl] at hid
    simp at hid
  constructor
  · simp [GetPostHandler, hne, hid, GetPostByID, hmiss]
  · simp [DeletePostHandler, hne, hid, GetPostByID, hmiss]

/-- Witness for C4: getting and deleting id 3 in the empty store both
respond 404. -/
theorem get_delete_unknown_id_404_witness :
    Atoi "3" = some 3 ∧
    mapLookup (([] : List (Int × Post))) 3 = none ∧
    GetPostHandler ⟨[], 0⟩ "3" = ({ status := 404, body := none }, ⟨[], 0⟩) ∧
    DeletePostHandler ⟨[], 0⟩ "3" = ({ status := 404, body := none }, ⟨[], 0⟩) :=
  ⟨by decide, by decide,
    (get_delete_unknown_id_404 ⟨[], 0⟩ "3" 3 (by decide) (by decide)).1,
    (get_delete_unknown_id_404 ⟨[], 0⟩ "3" 3 (by decide) (by decide)).2⟩

/-- C5: `DELETE /posts/:id` on an id that is present responds 204 and removes
exactly that entry; a subsequent `GET /posts/:id` on the resulting state
responds 404. -/
theorem delete_then_get_404 (st : DBState) (idParam : String) (id : Int) (p : Post)
    (hid : Atoi idParam = some id)
    (hpresent : mapLookup st.inmemoryPostDB id = some p) :
    DeletePostHandler st idParam =
      ({ status := 204, body := none },
       { st with inmemoryPostDB := mapDelete st.inmemoryPostDB id }) ∧
    GetPostHandler { st with inmemoryPostDB := mapDelete st.inmemoryPostDB id } idParam =
      ({ status := 404, body := none },
       { st with inmemoryPostDB := mapDelete st.inmemoryPostDB id }) := by
  have hne : idParam ≠ "" := by
    rintro rfl
    rw [show Atoi "" = none from rfl] at hid
    simp at hid
  constructor
  · simp [DeletePostHandler, hne, hid, GetPostByID, hpresent, DeletePostByID]
  · simp [GetPostHandler, hne, hid, GetPostByID, mapLookup_mapDelete_self]

/-- Witness for C5: deleting the only post responds 204, and a following GET
responds 404. -/
theorem delete_then_get_404_witness :
    Atoi "1" = some 1 ∧
    mapLookup [((1 : Int), (⟨1, "t", "b"⟩ : Post))] 1 = some ⟨1, "t", "b"⟩ ∧
    DeletePostHandler ⟨[(1, ⟨1, "t", "b"⟩)], 1⟩ "1" =
      ({ status := 204, body := none }, ⟨[], 1⟩) ∧
    GetPostHandler ⟨[], 1⟩ "1" = ({ status := 404, body := none }, ⟨[], 1⟩) :=
  ⟨by decide, by decide,
    (delete_then_get_404 ⟨[(1, ⟨1, "t", "b"⟩)], 1⟩ "1" 1 ⟨1, "t", "b"⟩
      (by decide) (by decide)).1,
    (delete_then_get_404 ⟨[(1, ⟨1, "t", "b"⟩)], 1⟩ "1" 1 ⟨1, "t", "b"⟩
      (by decide) (by decide)).2⟩

/-- Counterexample for C6 as stated: a `PATCH /posts/1` with a malformed JSON
body against the empty store responds 404, not 400 — the handler resolves the
id (and 404s) before it ever binds the body. -/
theorem patch_unknown_id_malformed_body_404 :
    UpdatePostHanlder { inmemoryPostDB := [], idPostCounter := 0 } "1" none =
      ({ status := 404, body := none }, { inmemoryPostDB := [], idPostCounter := 0 }) ∧
    (404 : Nat) ≠ 400 :=
  ⟨by decide, by decide⟩

/-- C6 (amended): a malformed JSON body yields 400 for `POST /posts`
unconditionally, and for `PATCH /posts/:id` whenever the id is present in the
store (for an absent id the handler responds 404 before binding the body); a
missing or non-numeric `:id` yields 400 for GET, PATCH and DELETE. -/
theorem bad_request_400 :
    (∀ st : DBState, NewPostHandler st none = ({ status := 400, body := none }, st)) ∧
    (∀ (st : DBState) (idParam : String) (id : Int) (p : Post),
      Atoi idParam = some id → mapLookup st.inmemoryPostDB id = some p →
      UpdatePostHanlder st idParam none = ({ status := 400, body := none }, st)) ∧
    (∀ (st : DBState) (idParam : String) (body : Option UpdatePostReq),
      Atoi idParam = none →
      GetPostHandler st idParam = ({ status := 400, body := none }, st) ∧
      UpdatePostHanlder st idParam body = ({ status := 400, body := none }, st) ∧
      DeletePostHandler st idParam = ({ status := 400, body := none }, st)) := by
  refine ⟨fun st => rfl, ?_, ?_⟩
  · intro st idParam id p hid hfound
    have hne : idParam ≠ "" := by
      rintro rfl
      rw [show Atoi "" = none from rfl] at hid
      simp at hid
    simp [UpdatePostHanlder, hne, hid, GetPostByID, hfound]
  · intro st idParam body hid
    by_cases hne : idParam = ""
    · subst hne
      exact ⟨rfl, rfl, rfl⟩
    · exact ⟨by simp [GetPostHandler, hne, hid], by simp [UpdatePostHanlder, hne, hid],
        by simp [DeletePostHandler, hne, hid]⟩

/-- Witness for C6 (amended): a malformed body on POST and on PATCH of an
existing id gives 400, and a non-numeric id on GET gives 400. -/
theorem bad_request_400_witness :
    Atoi "1" = some 1 ∧
    mapLookup [((1 : Int), (⟨1, "t", "b"⟩ : Post))] 1 = some ⟨1, "t", "b"⟩ ∧
    Atoi "abc" = none ∧
    NewPostHandler ⟨[], 0⟩ none = ({ status := 400, body := none }, ⟨[], 0⟩) ∧
    UpdatePostHanlder ⟨[(1, ⟨1, "t", "b"⟩)], 1⟩ "1" none =
      ({ status := 400, body := none }, ⟨[(1, ⟨1, "t", "b"⟩)], 1⟩) ∧
    GetPostHandler ⟨[], 0⟩ "abc" = ({ status := 400, body := none }, ⟨[], 0⟩) :=
  ⟨by decide, by decide, by decide,
    bad_request_400.1 ⟨[], 0⟩,
    bad_request_400.2.1 ⟨[(1, ⟨1, "t", "b"⟩)], 1⟩ "1" 1 ⟨1, "t", "b"⟩ (by decide) (by decide),
    (bad_request_400.2.2 ⟨[], 0⟩ "abc" none (by decide)).1⟩

/-- C8: `POST /posts` with a well-formed body responds 200 (which is the
"201/200" of the interface table) with `{id, title, body}`, where the id is
the newly assigned counter value — the wrapping increment of `idPostCounter`,
which is the plain increment at every reachable state — and title and body
echo the request; the post is stored under that id. -/
theorem NewPostHandler_creates_post (st : DBState) (title bodyStr : String) :
    NewPostHandler st (some { Title := title, Body := bodyStr }) =
      ({ status := 200,
         body := some (.newPost
           { ID := wrapInt64 (st.idPostCounter + 1), Title := title, Body := bodyStr }) },
       { inmemoryPostDB := mapInsert st.inmemoryPostDB (wrapInt64 (st.idPostCounter + 1))
           { ID := wrapInt64 (st.idPostCounter + 1), Title := title, Body := bodyStr },
         idPostCounter := wrapInt64 (st.idPostCounter + 1) }) := rfl

/-- C7: the notifier-demo update handler invokes the registered notifiers in
registration order; if every notifier succeeds it responds
`200 {"status": "post updated"}` with no recorded error, and if some notifier
fails after a succeeding run of earlier ones, exactly the notifiers up to and
including the failing one are invoked, its error is recorded, and no response
is written. -/
theorem NotifierDemo_UpdateHandler_spec (ns : List NotifierDemo.PostUpdateNotifier) :
    ((∀ n ∈ ns, n.notify NotifierDemo.zeroPost NotifierDemo.Action.update = none) →
      NotifierDemo.UpdateHandler ns =
        { invoked := ns, recordedErrors := [], response := some (200, "post updated") }) ∧
    (∀ (start rest : List NotifierDemo.PostUpdateNotifier)
        (n : NotifierDemo.PostUpdateNotifier) (e : String),
      ns = start ++ n :: rest →
      (∀ m ∈ start, m.notify NotifierDemo.zeroPost NotifierDemo.Action.update = none) →
      n.notify NotifierDemo.zeroPost NotifierDemo.Action.update = some e →
      NotifierDemo.UpdateHandler ns =
        { invoked := start ++ [n], recordedErrors := [e], response := none }) := by
  constructor
  · induction ns with
    | nil => intro _; rfl
    | cons m ms ih =>
      intro h
      have hm : m.notify NotifierDemo.zeroPost NotifierDemo.Action.update = none :=
        h m (List.mem_cons_self m ms)
      have ih' := ih fun x hx => h x (List.mem_cons_of_mem m hx)
      simp [NotifierDemo.UpdateHandler, hm, ih']
  · intro start rest n e hns hstart hn
    subst hns
    revert hstart
    induction start with
    | nil => intro _; simp [NotifierDemo.UpdateHandler, hn]
    | cons m ms ih =>
      intro hstart
      have hm : m.notify NotifierDemo.zeroPost NotifierDemo.Action.update = none :=
        hstart m (List.mem_cons_self m ms)
      have ih' := ih fun x hx => hstart x (List.mem_cons_of_mem m hx)
      simp [NotifierDemo.UpdateHandler, hm, ih']

/-- Witness for C7: with a succeeding notifier followed by one failing with
"boom" and a third never reached, exactly the first two are invoked, "boom" is
recorded, and no response is written. -/
theorem NotifierDemo_UpdateHandler_spec_witness :
    NotifierDemo.UpdateHandler
        [{ kind := .lineNotifier, notify := fun _ _ => none },
         { kind := .emailNotifier, notify := fun _ _ => some "boom" },
         { kind := .otherNotifier, notify := fun _ _ => none }] =
      { invoked := [{ kind := .lineNotifier, notify := fun _ _ => none },
                    { kind := .emailNotifier, notify := fun _ _ => some "boom" }],
        recordedErrors := ["boom"], response := none } :=
  (NotifierDemo_UpdateHandler_spec
      [{ kind := .lineNotifier, notify := fun _ _ => none },
       { kind := .emailNotifier, notify := fun _ _ => some "boom" },
       { kind := .otherNotifier, notify := fun _ _ => none }]).2
    [{ kind := .lineNotifier, notify := fun _ _ => none }]
    [{ kind := .otherNotifier, notify := fun _ _ => none }]
    { kind := .emailNotifier, notify := fun _ _ => some "boom" } "boom" rfl
    (by
      intro m hm
      rcases List.mem_singleton.mp hm with rfl
      rfl)
    rfl

/-- C10: the `lsp.go` update handler invokes `NotifyPostUpdated` only on
notifiers of dynamic type `*EmailNotifier`; every other registered notifier is
skipped, and when every email notifier succeeds the handler responds
`200 {"status": "post updated"}` regardless of the skipped notifiers'
behaviour. -/
theorem LSP_UpdateHandler_email_only (ns : List NotifierDemo.PostUpdateNotifier) :
    (∀ n ∈ (LSPVariant.UpdateHandler ns).invoked,
        n.kind = NotifierDemo.NotifierKind.emailNotifier) ∧
    ((∀ n ∈ ns, n.kind = NotifierDemo.NotifierKind.emailNotifier →
        n.notify NotifierDemo.zeroPost NotifierDemo.Action.update = none) →
      LSPVariant.UpdateHandler ns =
        { invoked := ns.filter fun n =>
            decide (n.kind = NotifierDemo.NotifierKind.emailNotifier),
          recordedErrors := [], response := some (200, "post updated") }) := by
  constructor
  · induction ns with
    | nil => intro n hn; simp [LSPVariant.UpdateHandler] at hn
    | cons m ms ih =>
      intro n hn
      cases hk : m.kind with
      | emailNotifier =>
        cases hm : m.notify NotifierDemo.zeroPost NotifierDemo.Action.update with
        | some e =>
          simp [LSPVariant.UpdateHandler, hk, hm] at hn
          subst hn
          exact hk
        | none =>
          simp [LSPVariant.UpdateHandler, hk, hm] at hn
          rcases hn with rfl | hn
          · exact hk
          · exact ih n hn
      | lineNotifier =>
        simp [LSPVariant.UpdateHandler, hk] at hn
        exact ih n hn
      | otherNotifier =>
        simp [LSPVariant.UpdateHandler, hk] at hn
        exact ih n hn
  · induction ns with
    | nil => intro _; rfl
    | cons m ms ih =>
      intro h
      have ih' := ih fun x hx hk => h x (List.mem_cons_of_mem m hx) hk
      cases hk : m.kind with
      | emailNotifier =>
        have hm := h m (List.mem_cons_self m ms) hk
        simp [LSPVariant.UpdateHandler, hk, hm, ih', List.filter_cons]
      | lineNotifier =>
        simp [LSPVariant.UpdateHandler, hk, ih', List.filter_cons]
      | otherNotifier =>
        simp [LSPVariant.UpdateHandler, hk, ih', List.filter_cons]

/-- Witness for C10: with a line notifier that would fail and an email
notifier that succeeds, only the email notifier is invoked and the handler
still responds 200. -/
theorem LSP_UpdateHandler_email_only_witness :
    LSPVariant.UpdateHandler
        [{ kind := .lineNotifier, notify := fun _ _ => some "line fails" },
         { kind := .emailNotifier, notify := fun _ _ => none }] =
      { invoked := [{ kind := .emailNotifier, notify := fun _ _ => none }],
        recordedErrors := [], response := some (200, "post updated") } :=
  (LSP_UpdateHandler_email_only
      [{ kind := .lineNotifier, notify := fun _ _ => some "line fails" },
       { kind := .emailNotifier, notify := fun _ _ => none }]).2
    (by
      intro n hn hk
      rcases List.mem_cons.mp hn with rfl | hn
      · exact absurd hk (by simp)
      · rcases List.mem_singleton.mp hn with rfl
        rfl)
